import Mathlib

/-!
Shallow embedding of the `chatgpt-subsystems` Rust crate
(`src/api.rs`, `src/client.rs`, `src/xml_dsl.rs`).

Pure fragments of the source are translated into executable Lean
definitions; I/O boundaries (the HTTP transport, the HTML parser, the
JSON codec, the template engine) are modelled by their already-decoded
values (a status code, a header list, a list of body segments, a list of
parsed markup elements, a JSON-parse function passed as a parameter).
Rust machine integers are modelled as `Nat`/`Int` with explicit range
checks where the source checks ranges; `f32` configuration values are
modelled as exact rationals read from the decimal literal (no claim
depends on float rounding, only on parse success or failure).
-/

/-! ## Rust string primitives, restricted to the ASCII inputs the claims use -/

/-- Models Rust `str::to_lowercase` (ASCII fragment: `char`-wise lowering). -/
def toLowerStr (s : String) : String :=
  String.mk (s.data.map Char.toLower)

/-- Leading- and trailing-whitespace removal on a character list. -/
def trimChars (cs : List Char) : List Char :=
  ((cs.dropWhile Char.isWhitespace).reverse.dropWhile Char.isWhitespace).reverse

/-- Models Rust `str::trim` (ASCII whitespace fragment). -/
def rustTrim (s : String) : String :=
  String.mk (trimChars s.data)

/-- Split a character list at every newline character; the result always has
one more part than there are newlines (so `[] ↦ [[]]`). -/
def splitNl : List Char → List (List Char)
  | [] => [[]]
  | c :: rest =>
    match splitNl rest with
    | [] => [[c]]
    | p :: ps => if c = '\n' then [] :: p :: ps else (c :: p) :: ps

/-- Remove one trailing carriage return, if present. -/
def stripCr (cs : List Char) : List Char :=
  if cs.getLast? = some '\r' then cs.dropLast else cs

/-- Models Rust `str::lines`: split at `\n` or `\r\n`; terminators are not
included; a final line without terminator is kept; a trailing terminator
does not produce an extra empty line. -/
def rustLines (s : String) : List String :=
  let parts := splitNl s.data
  let first := parts.dropLast.map (fun cs => String.mk (stripCr cs))
  match parts.getLast? with
  | some [] => first
  | some last => first ++ [String.mk last]
  | none => first

/-- Numeric value of a digit list (most significant first). -/
def digitsVal (cs : List Char) : Nat :=
  cs.foldl (fun a c => 10 * a + (c.toNat - 48)) 0

/-- Models Rust `usize::from_str` on a 64-bit target: optional `+` sign,
one or more digits, value below `2^64`. -/
def parseUsize (s : String) : Option Nat :=
  let cs := match s.data with
    | '+' :: rest => rest
    | cs => cs
  if cs.isEmpty then none
  else if cs.all Char.isDigit then
    let v := digitsVal cs
    if v < 2 ^ 64 then some v else none
  else none

/-- Models Rust `i32::from_str`: optional sign, one or more digits, value
within `[-2^31, 2^31)`. -/
def parseI32 (s : String) : Option Int :=
  let (sign, cs) : Int × List Char := match s.data with
    | '+' :: rest => (1, rest)
    | '-' :: rest => (-1, rest)
    | cs => (1, cs)
  if cs.isEmpty then none
  else if cs.all Char.isDigit then
    let v : Int := sign * (digitsVal cs : Int)
    if -(2 ^ 31) ≤ v ∧ v < 2 ^ 31 then some v else none
  else none

/-- Models Rust `f32::from_str` on finite decimal literals
(`[+-]? (digits | digits . digits? | . digits) ([eE] [+-]? digits)?`);
the value is read exactly into `ℚ` — `f32` rounding and the special
values `inf`/`NaN` are not modelled, since no claim depends on the
parsed value, only on which strings parse. -/
def parseF32 (s : String) : Option Rat :=
  let (sign, cs) : Rat × List Char := match s.data with
    | '+' :: rest => (1, rest)
    | '-' :: rest => (-1, rest)
    | cs => (1, cs)
  let (ip, cs) := cs.span Char.isDigit
  let (fp, cs) : Option (List Char) × List Char := match cs with
    | '.' :: rest =>
      let (f, r) := rest.span Char.isDigit
      (some f, r)
    | cs => (none, cs)
  if ip.isEmpty && (fp.getD []).isEmpty then none
  else
    let mantissa : Rat :=
      (digitsVal ip : Rat) + (digitsVal (fp.getD []) : Rat) / ((10 : Rat) ^ (fp.getD []).length)
    match cs with
    | [] => some (sign * mantissa)
    | 'e' :: rest | 'E' :: rest =>
      let (esign, rest) : Bool × List Char := match rest with
        | '+' :: r => (true, r)
        | '-' :: r => (false, r)
        | r => (true, r)
      let (ed, rest) := rest.span Char.isDigit
      if ed.isEmpty ∨ ¬ rest.isEmpty then none
      else if esign then some (sign * mantissa * (10 : Rat) ^ digitsVal ed)
      else some (sign * mantissa / (10 : Rat) ^ digitsVal ed)
    | _ => none

/-! ## Data model shared by `api.rs` and `client.rs` -/

/-- `Role` (`api.rs` / `client.rs`): closed enumeration of message roles. -/
inductive Role where
  | system
  | user
  | assistant
deriving DecidableEq, Repr

/-- `Role::from` (`api.rs:17-25`, identical in `client.rs:186-194`):
case-insensitive match against the three role names. -/
def Role.ofString (string : String) : Option Role :=
  match toLowerStr string with
  | "system" => some Role.system
  | "assistant" => some Role.assistant
  | "user" => some Role.user
  | _ => none

/-- `Message` (`api.rs` / `client.rs`). -/
structure Message where
  role : Role
  content : String
deriving DecidableEq, Repr

/-- `ResponseType` (`api.rs` / `client.rs`). -/
inductive ResponseType where
  | text
  | jsonObject
deriving DecidableEq, Repr

/-- `ResponseFormat` (`api.rs` / `client.rs`). -/
structure ResponseFormat where
  type : ResponseType
deriving DecidableEq, Repr

/-- `ResponseFormat::json_object`. -/
def ResponseFormat.json_object : ResponseFormat := ⟨ResponseType.jsonObject⟩

/-- `ResponseFormat::text`. -/
def ResponseFormat.text : ResponseFormat := ⟨ResponseType.text⟩

/-- `ChatResponseDelta` (`client.rs:602-605`). -/
structure ChatResponseDelta where
  content : Option String
deriving DecidableEq, Repr

/-- `ChatResponseChoice` (`client.rs:595-600`); `index` is a `usize`. -/
structure ChatResponseChoice where
  index : Nat
  delta : ChatResponseDelta
  finish_reason : Option String
deriving DecidableEq, Repr

/-- `CompletionChunk` (`client.rs:585-593`). -/
structure CompletionChunk where
  id : String
  choices : List ChatResponseChoice
  created : Int
  model : String
  system_fingerprint : Option String
  object : String
deriving DecidableEq, Repr

/-- `ChatRequest` (`api.rs:55-115`): the request body built by the prompt
compiler. `f32` fields are modelled as `ℚ`, `i32` fields as `Int`. -/
structure ChatRequest where
  messages : List Message
  model : String
  stream : Option Bool
  temperature : Option Rat
  n : Option Int
  max_tokens : Option Int
  top_p : Option Rat
  frequency_penalty : Option Rat
  presence_penalty : Option Rat
  logprobs : Option Int
  response_format : Option ResponseFormat
  stop : Option (List String)
deriving DecidableEq, Repr

/-- `Default for ChatRequest` (`api.rs:118-135`). -/
def chatRequestDefault : ChatRequest where
  messages := []
  model := "gpt-3.5-turbo-1106"
  stream := some true
  temperature := none
  n := none
  max_tokens := some 4096
  top_p := none
  frequency_penalty := none
  presence_penalty := none
  logprobs := none
  response_format := none
  stop := none

/-! ## `client.rs`: configuration builder and request body -/

/-- `ConfigurationBuilder` (`client.rs:13-88`): every field optional;
`usize` fields are modelled as `Nat`, `isize` as `Int`. -/
structure ConfigurationBuilder where
  model : Option String
  stream : Option Bool
  temperature : Option Rat
  n : Option Nat
  max_tokens : Option Nat
  top_p : Option Rat
  frequency_penalty : Option Rat
  presence_penalty : Option Rat
  logprobs : Option Bool
  top_logprobs : Option Nat
  response_format : Option ResponseFormat
  stop : Option (List String)
  seed : Option Int
deriving DecidableEq, Repr

/-- `derive(Default)` for `ConfigurationBuilder`: all fields `None`. -/
def configurationBuilderDefault : ConfigurationBuilder where
  model := none
  stream := none
  temperature := none
  n := none
  max_tokens := none
  top_p := none
  frequency_penalty := none
  presence_penalty := none
  logprobs := none
  top_logprobs := none
  response_format := none
  stop := none
  seed := none

/-- `ChatCompletionsBody` (`client.rs:366-442`). -/
structure ChatCompletionsBody where
  messages : List Message
  model : String
  stream : Option Bool
  temperature : Option Rat
  n : Option Nat
  max_tokens : Option Nat
  top_p : Option Rat
  frequency_penalty : Option Rat
  presence_penalty : Option Rat
  logprobs : Option Bool
  top_logprobs : Option Nat
  response_format : Option ResponseFormat
  stop : Option (List String)
  seed : Option Int
deriving DecidableEq, Repr

/-- `ChatCompletionsBody::new` (`client.rs:445-464`): the given model and
messages, every optional field `None`. -/
def ChatCompletionsBody.new (model : String) (messages : List Message) : ChatCompletionsBody where
  messages := messages
  model := model
  stream := none
  temperature := none
  n := none
  max_tokens := none
  top_p := none
  frequency_penalty := none
  presence_penalty := none
  logprobs := none
  top_logprobs := none
  response_format := none
  stop := none
  seed := none

/-- `ConfigurationBuilder::build` (`client.rs:148-162`): `None` when `model`
is unset; otherwise starts from `ChatCompletionsBody::new` and copies
`stream`, `temperature`, `n`, `max_tokens`, `top_p`, `frequency_penalty`,
`presence_penalty`, `logprobs`, `response_format` and `stop` (the source
copies exactly these ten fields). -/
def ConfigurationBuilder.build (self : ConfigurationBuilder) (messages : List Message) :
    Option ChatCompletionsBody :=
  match self.model with
  | none => none
  | some model =>
    let chat_request := ChatCompletionsBody.new model messages
    some { chat_request with
      stream := self.stream
      temperature := self.temperature
      n := self.n
      max_tokens := self.max_tokens
      top_p := self.top_p
      frequency_penalty := self.frequency_penalty
      presence_penalty := self.presence_penalty
      logprobs := self.logprobs
      response_format := self.response_format
      stop := self.stop }

/-! ## `client.rs`: error classification and rate-limit metadata -/

/-- `ApiError` (`client.rs:211-233`). -/
inductive ApiError where
  | APIConnectionError
  | APITimeoutError
  | InternalServerError
  | AuthenticationError
  | BadRequestError
  | ConflictError
  | NotFoundError
  | PermissionDeniedError
  | RateLimitError
  | UnprocessableEntityError
deriving DecidableEq, Repr

/-- `ApiError::from_code` (`client.rs:252-263`): the seven listed HTTP
statuses map to their specific kinds; every other status maps to `None`. -/
def ApiError.from_code (status : Nat) : Option ApiError :=
  if status = 400 then some ApiError.BadRequestError
  else if status = 401 then some ApiError.AuthenticationError
  else if status = 403 then some ApiError.PermissionDeniedError
  else if status = 404 then some ApiError.NotFoundError
  else if status = 409 then some ApiError.ConflictError
  else if status = 422 then some ApiError.UnprocessableEntityError
  else if status = 429 then some ApiError.RateLimitError
  else none

/-- `RateLimitMetadata` (`client.rs:235-246`). -/
structure RateLimitMetadata where
  retry_after : Nat
  retry_after_ms : Nat
  ratelimit_limit_requests : Nat
  ratelimit_limit_tokens : Nat
  ratelimit_remaining_requests : Nat
  ratelimit_remaining_tokens : Nat
  ratelimit_reset_requests : String
  ratelimit_reset_tokens : String
deriving DecidableEq, Repr

/-- `response.headers().get(name)`: first header with the given name.
Header values are modelled as strings, so the `to_str()` conversion of the
source (which only fails on non-visible-ASCII bytes) always succeeds. -/
def hdrGet (headers : List (String × String)) (k : String) : Option String :=
  (headers.find? (fun kv => kv.1 == k)).map (fun kv => kv.2)

/-- `RateLimitMetadata::from_response` (`client.rs:267-334`), composed with
the `.ok()` at `client.rs:638`: read all eight headers (each absence fails
the whole extraction), then parse the six numeric ones as `usize` (each
parse failure fails the whole extraction). -/
def RateLimitMetadata.from_response (headers : List (String × String)) :
    Option RateLimitMetadata :=
  match hdrGet headers "retry-after" with
  | none => none
  | some retry_after =>
  match hdrGet headers "retry-after-ms" with
  | none => none
  | some retry_after_ms =>
  match hdrGet headers "x-ratelimit-limit-requests" with
  | none => none
  | some ratelimit_limit_requests =>
  match hdrGet headers "x-ratelimit-limit-tokens" with
  | none => none
  | some ratelimit_limit_tokens =>
  match hdrGet headers "x-ratelimit-remaining-requests" with
  | none => none
  | some ratelimit_remaining_requests =>
  match hdrGet headers "x-ratelimit-remaining-tokens" with
  | none => none
  | some ratelimit_remaining_tokens =>
  match hdrGet headers "x-ratelimit-reset-requests" with
  | none => none
  | some ratelimit_reset_requests =>
  match hdrGet headers "x-ratelimit-reset-tokens" with
  | none => none
  | some ratelimit_reset_tokens =>
  match parseUsize retry_after with
  | none => none
  | some v_retry_after =>
  match parseUsize retry_after_ms with
  | none => none
  | some v_retry_after_ms =>
  match parseUsize ratelimit_limit_requests with
  | none => none
  | some v_ratelimit_limit_requests =>
  match parseUsize ratelimit_limit_tokens with
  | none => none
  | some v_ratelimit_limit_tokens =>
  match parseUsize ratelimit_remaining_requests with
  | none => none
  | some v_ratelimit_remaining_requests =>
  match parseUsize ratelimit_remaining_tokens with
  | none => none
  | some v_ratelimit_remaining_tokens =>
  some {
    retry_after := v_retry_after
    retry_after_ms := v_retry_after_ms
    ratelimit_limit_requests := v_ratelimit_limit_requests
    ratelimit_limit_tokens := v_ratelimit_limit_tokens
    ratelimit_remaining_requests := v_ratelimit_remaining_requests
    ratelimit_remaining_tokens := v_ratelimit_remaining_tokens
    ratelimit_reset_requests := ratelimit_reset_requests
    ratelimit_reset_tokens := ratelimit_reset_tokens }

/-! ## `client.rs`: the streaming decode loop of `execute` -/

/-- One complete line of the body stream, as handled at `client.rs:645-660`
(identically at `api.rs:166-180`): lines starting with the literal
`"data: "` yield their JSON payload, all other lines are ignored. -/
def dataLineJson (line : String) : Option String :=
  if ("data: ".data).isPrefixOf line.data then
    some (String.mk (line.data.drop 6))
  else none

/-- Process one complete line: parse the payload of a `data: ` line with
the JSON codec `parse` (modelling `serde_json::from_str::<CompletionChunk>`)
and append the chunk on success; drop the line on parse failure or a
missing `data: ` marker. -/
def decodeLineStep (parse : String → Option CompletionChunk)
    (results : List CompletionChunk) (line : String) : List CompletionChunk :=
  match dataLineJson line with
  | some json_part =>
    match parse json_part with
    | some response => results ++ [response]
    | none => results
  | none => results

/-- The decode loop of `ChatCompletionsRequest::execute`
(`client.rs:642-661`, identically `ChatRequest::invoke`, `api.rs:163-181`):
each network segment is split into lines independently with `text.lines()`;
no partial-line state is carried from one segment to the next. -/
def streamDecode (parse : String → Option CompletionChunk)
    (segments : List String) : List CompletionChunk :=
  segments.foldl (fun results text => (rustLines text).foldl (decodeLineStep parse) results) []

/-- The decoded ingredients of an HTTP response, as `execute` consumes them:
status code, headers, and the UTF-8 decoded body segments in arrival order. -/
structure HttpResponse where
  status : Nat
  headers : List (String × String)
  body_segments : List String

/-- `ChatCompletionsResponse` (`client.rs:677-681`). -/
structure ChatCompletionsResponse where
  rate_limit_metadata : Option RateLimitMetadata
  output : List CompletionChunk
deriving DecidableEq, Repr

/-- The response-handling phase of `ChatCompletionsRequest::execute`
(`client.rs:635-663`): if `ApiError::from_code` classifies the status, the
classified error is returned at once (before any header or body handling);
otherwise rate-limit metadata is extracted best-effort from the headers and
the body segments are decoded into the chunk list. -/
def executeResponse (parse : String → Option CompletionChunk) (resp : HttpResponse) :
    Except ApiError ChatCompletionsResponse :=
  match ApiError.from_code resp.status with
  | some error => Except.error error
  | none =>
    let rate_limit_metadata := RateLimitMetadata.from_response resp.headers
    Except.ok { rate_limit_metadata := rate_limit_metadata
                output := streamDecode parse resp.body_segments }

/-- Whether an `execute` outcome is an error return. -/
def execFailed : Except ApiError ChatCompletionsResponse → Bool
  | Except.error _ => true
  | Except.ok _ => false

/-- A status in the 2xx success range, as `reqwest`'s `is_success`. -/
def isSuccessStatus (status : Nat) : Bool :=
  200 ≤ status && status < 300

/-- `ChatCompletionsResponse::content` (`client.rs:684-700`): join, over the
chunks in arrival order, the present `delta.content` of every choice whose
`index` equals the requested one. -/
def ChatCompletionsResponse.content (self : ChatCompletionsResponse) (index : Nat) : String :=
  String.join (self.output.flatMap (fun chunk =>
    chunk.choices.filterMap (fun choice =>
      if choice.index = index then choice.delta.content else none)))

/-! ## `xml_dsl.rs`: the prompt compiler

The HTML parsing done by the external `scraper` crate is modelled by its
result: a `message` element carries its (first) `role` attribute and its
inner markup, a `prompt` element carries its attribute list and its nested
`message` elements in document order; `select` iterates elements in
document order. -/

/-- A `<message>` element as selected at `xml_dsl.rs:102-104`. -/
structure MessageElement where
  role_attr : Option String
  inner_html : String
deriving DecidableEq, Repr

/-- A top-level `<prompt>` element as selected at `xml_dsl.rs:78-80`. -/
structure PromptElement where
  attrs : List (String × String)
  messages : List MessageElement
deriving DecidableEq, Repr

/-- `element.attr(name)`: the first attribute with the given name. -/
def PromptElement.attr (e : PromptElement) (k : String) : Option String :=
  ((e.attrs).find? (fun kv => kv.1 == k)).map (fun kv => kv.2)

/-- `Prompt` (`xml_dsl.rs:14-18`). -/
structure Prompt where
  name : String
  request : ChatRequest
deriving DecidableEq, Repr

/-- One `message` element body (`xml_dsl.rs:104-109`): the role attribute
defaults to `"user"`, `Role::from(..).unwrap()` aborts the whole
compilation on an unrecognized role (modelled as `none`), and the content
is the inner markup trimmed (the `unindent` call of the source is
commented out). -/
def compileMessage (me : MessageElement) : Option Message :=
  match Role.ofString ((me.role_attr).getD "user") with
  | none => none
  | some role => some { role := role, content := rustTrim me.inner_html }

/-- The `map`/`collect` over the `message` elements of one prompt
(`xml_dsl.rs:102-110`); `none` models the `unwrap` panic aborting the
whole document. -/
def mapMessages : List MessageElement → Option (List Message)
  | [] => some []
  | me :: rest =>
    match compileMessage me with
    | none => none
    | some m =>
      match mapMessages rest with
      | none => none
      | some ms => some (m :: ms)

/-- Outcome of the `filter_map` closure for one `prompt` element. -/
inductive ElemResult where
  | aborted
  | skipped
  | ok (entry : String × Prompt)
deriving DecidableEq, Repr

/-- The `filter_map` closure body of `internal_parse_html_dsl`
(`xml_dsl.rs:80-121`): a missing `name` attribute skips the element (the
`?` of line 81 runs before any message is examined); `model` defaults to
`"gpt-3.5-turbo"`; the numeric and format attributes parse permissively
(failures leave the field unset); an unrecognized message role aborts the
whole compilation. The remaining `ChatRequest` fields keep their
`Default` values, except `max_tokens`, which is overwritten by the parsed
attribute even when that is unset. -/
def compileElement (e : PromptElement) : ElemResult :=
  match e.attr "name" with
  | none => ElemResult.skipped
  | some name =>
    let model := (e.attr "model").getD "gpt-3.5-turbo"
    let temperature := (e.attr "temperature").bind parseF32
    let max_tokens := (e.attr "max-tokens").bind parseI32
    let top_p := (e.attr "top-p").bind parseF32
    let frequency_penalty := (e.attr "frequency-penalty").bind parseF32
    let presence_penalty := (e.attr "presence-penalty").bind parseF32
    let response_format := (e.attr "response-format").bind (fun x =>
      match toLowerStr x with
      | "json-object" => some ResponseFormat.json_object
      | "json_object" => some ResponseFormat.json_object
      | "text" => some ResponseFormat.text
      | _ => none)
    match mapMessages e.messages with
    | none => ElemResult.aborted
    | some messages =>
      let request := { chatRequestDefault with
        messages := messages,
        model := model,
        temperature := temperature,
        max_tokens := max_tokens,
        top_p := top_p,
        frequency_penalty := frequency_penalty,
        presence_penalty := presence_penalty,
        response_format := response_format }
      ElemResult.ok (name, { name := name, request := request })

/-- Insertion into a `HashMap<String, Prompt>`: a later insert with an
existing key replaces that key's value. The map is modelled as an
association list and insertion as remove-then-prepend; this has exactly
the `HashMap` key/value semantics (`get k` sees the most recent insert
for `k`, other keys are untouched), and no other `HashMap` behaviour
(such as iteration order) is ever observed by the source under study. -/
def hmInsert (m : List (String × Prompt)) (k : String) (v : Prompt) :
    List (String × Prompt) :=
  (k, v) :: m.filter (fun kv => kv.1 != k)

/-- `HashMap::get` on the association-list model of the map. -/
def hmGet (m : List (String × Prompt)) (k : String) : Option Prompt :=
  (m.find? (fun kv => kv.1 == k)).map (fun kv => kv.2)

/-- One step of collecting the `filter_map` output into the `HashMap`:
an abort (role `unwrap` panic) poisons the whole run, a skipped element
leaves the map unchanged, a produced pair is inserted (replacing any
earlier pair with the same name). -/
def parseStep (acc : Option (List (String × Prompt))) (e : PromptElement) :
    Option (List (String × Prompt)) :=
  match acc with
  | none => none
  | some m =>
    match compileElement e with
    | ElemResult.aborted => none
    | ElemResult.skipped => some m
    | ElemResult.ok kv => some (hmInsert m kv.1 kv.2)

/-- `internal_parse_html_dsl` (`xml_dsl.rs:74-123`): process the `prompt`
elements in document order through the `filter_map` closure and collect
the produced `(name, prompt)` pairs into a `HashMap` (later pairs with the
same name replace earlier ones); `none` models the `unwrap` panic of an
unrecognized role aborting the whole document. -/
def internal_parse_html_dsl (es : List PromptElement) :
    Option (List (String × Prompt)) :=
  es.foldl parseStep (some [])

/-- The `(name, prompt)` pair an element contributes, if any (ignoring the
abort case); the collected map is built from these in document order. -/
def compiledPair (e : PromptElement) : Option (String × Prompt) :=
  match compileElement e with
  | ElemResult.ok kv => some kv
  | _ => none

/-! ## Spec-modelled buffered decoder -/

/-- Modelled from the spec: §4.3 requires the stream decoder to keep a
persistent line-reassembly buffer across network segments (append each
segment to the buffer, split off the complete lines, retain the trailing
incomplete line for the next segment); the source (`client.rs:642-661`,
`api.rs:163-181`) has no such buffer. Lines are handled exactly as in
`decodeLineStep`. -/
def bufferedDecode (parse : String → Option CompletionChunk)
    (segments : List String) : List CompletionChunk :=
  (segments.foldl (fun st seg =>
    let parts := splitNl (st.1 ++ seg.data)
    let complete := parts.dropLast.map (fun cs => String.mk (stripCr cs))
    (parts.getLastD [], complete.foldl (decodeLineStep parse) st.2))
    (([] : List Char), ([] : List CompletionChunk))).2

/-! ## Concrete sample data used by the individual claims -/

/-- A concrete decoded chunk. -/
def sampleChunk : CompletionChunk where
  id := "c1"
  choices := []
  created := 0
  model := "m"
  system_fingerprint := none
  object := "chat.completion.chunk"

/-- The JSON document encoding `sampleChunk` for the purpose of the sample
codec below (braces written as character escapes). -/
def samplePayload : String := "\x7b\"id\":\"c1\"\x7d"

/-- A concrete stand-in for `serde_json::from_str::<CompletionChunk>` on the
inputs these theorems feed it: the complete JSON document `samplePayload`
parses to `sampleChunk`, and any other string — in particular any strict
prefix or suffix of `samplePayload`, which is not a complete JSON
document — fails to parse. -/
def sampleParse (s : String) : Option CompletionChunk :=
  if s = samplePayload then some sampleChunk else none

/-- First half of a single `data: ` event, cut mid-payload (a network
segment boundary inside the line). -/
def c1seg1 : String := "data: \x7b\"id"

/-- Second half of the same event, ending with its newline. -/
def c1seg2 : String := "\":\"c1\"\x7d\n"

/-- Concrete prompt elements: two prompts both named `"x"`, with models
`"a"` and `"b"` (claim C2's shadowing example). -/
def c2elemA : PromptElement where
  attrs := [("name", "x"), ("model", "a")]
  messages := []

/-- Second `"x"`-named prompt, model `"b"`. -/
def c2elemB : PromptElement where
  attrs := [("name", "x"), ("model", "b")]
  messages := []

/-- A well-formed prompt element named `"good"` with one user message. -/
def elemGood : PromptElement where
  attrs := [("name", "good")]
  messages := [{ role_attr := some "user", inner_html := "hi" }]

/-- A prompt element whose message carries the unrecognized role
`"robot"`. -/
def elemBadRole : PromptElement where
  attrs := [("name", "bad")]
  messages := [{ role_attr := some "robot", inner_html := "hi" }]

/-- A prompt element with no `name` attribute. -/
def elemNoName : PromptElement where
  attrs := [("model", "m")]
  messages := []

/-! ## Theorems -/

/-- Claim C1 (code bug): the source keeps no line-reassembly buffer across
network segments. Splitting the single event `data: {"id":"c1"}\n` across
two segments at a byte boundary inside the line yields zero parsed chunks,
although the same bytes in one segment yield exactly one chunk, and the
buffered decoder required by the spec yields that one chunk on the split
input as well. -/
theorem c1_no_reassembly_buffer :
    streamDecode sampleParse [c1seg1, c1seg2] = [] ∧
    streamDecode sampleParse [c1seg1 ++ c1seg2] = [sampleChunk] ∧
    bufferedDecode sampleParse [c1seg1, c1seg2] = [sampleChunk] := by
  refine ⟨?_, ?_, ?_⟩ <;> decide

/-- Entries whose key is `k` never answer a lookup for a different key,
so removing them leaves that lookup unchanged. -/
theorem find?_filter_ne (m : List (String × Prompt)) (k k' : String) (h : k' ≠ k) :
    (m.filter (fun kv => kv.1 != k)).find? (fun kv => kv.1 == k') =
      m.find? (fun kv => kv.1 == k') := by
  induction m with
  | nil => rfl
  | cons a rest ih =>
    by_cases ha : a.1 = k
    · have h1 : (a.1 != k) = false := by simp [ha]
      have h2 : (a.1 == k') = false := by simp [ha]; exact fun hh => h hh.symm
      simp only [List.filter_cons, h1, Bool.false_eq_true, if_false, List.find?_cons, h2, ih]
    · have h1 : (a.1 != k) = true := by simp [ha]
      simp only [List.filter_cons, h1, if_true, List.find?_cons]
      cases hk' : (a.1 == k') with
      | true => rfl
      | false => exact ih

/-- Lookup after insert: the inserted key now maps to the inserted value,
every other key is unaffected. -/
theorem hmGet_hmInsert (m : List (String × Prompt)) (k k' : String) (v : Prompt) :
    hmGet (hmInsert m k v) k' = if k' = k then some v else hmGet m k' := by
  unfold hmGet hmInsert
  rw [List.find?_cons]
  by_cases hk : k' = k
  · subst hk
    simp
  · have h1 : (k == k') = false := by simp; exact fun hh => hk hh.symm
    simp only [h1, Bool.false_eq_true, if_false]
    rw [find?_filter_ne m k k' hk, if_neg hk]

/-- A poisoned (aborted) run stays poisoned. -/
theorem foldl_parseStep_none (es : List PromptElement) :
    es.foldl parseStep none = none := by
  induction es with
  | nil => rfl
  | cons e rest ih => simpa [parseStep] using ih

/-- Collecting into the map, started from an arbitrary map `m0`: a lookup
sees the value of the last element of the run that compiled to the looked-up
name, and falls back to `m0` otherwise. -/
theorem hmGet_foldl (es : List PromptElement) (m0 m : List (String × Prompt))
    (k : String) (h : es.foldl parseStep (some m0) = some m) :
    hmGet m k =
      (((es.filterMap compiledPair).reverse.find? (fun kv => kv.1 == k)).map
        (fun kv => kv.2)).or (hmGet m0 k) := by
  induction es generalizing m0 with
  | nil =>
    simp only [List.foldl_nil, Option.some.injEq] at h
    subst h
    simp
  | cons e rest ih =>
    rw [List.foldl_cons] at h
    cases hce : compileElement e with
    | aborted =>
      rw [show parseStep (some m0) e = none by simp [parseStep, hce]] at h
      rw [foldl_parseStep_none] at h
      exact absurd h (by simp)
    | skipped =>
      rw [show parseStep (some m0) e = some m0 by simp [parseStep, hce]] at h
      have hpair : compiledPair e = none := by simp [compiledPair, hce]
      rw [List.filterMap_cons, hpair]
      exact ih m0 h
    | ok kv =>
      rw [show parseStep (some m0) e = some (hmInsert m0 kv.1 kv.2) by
        simp [parseStep, hce]] at h
      have hpair : compiledPair e = some kv := by simp [compiledPair, hce]
      rw [List.filterMap_cons, hpair]
      have := ih (hmInsert m0 kv.1 kv.2) h
      rw [this, hmGet_hmInsert]
      simp only [List.reverse_cons, List.find?_append]
      cases hfind : (rest.filterMap compiledPair).reverse.find? (fun kv' => kv'.1 == k) with
      | some a => simp [Option.or]
      | none =>
        simp only [Option.or, Option.map_none']
        rw [List.find?_cons]
        cases hkk : (kv.1 == k) with
        | true =>
          have : k = kv.1 := (eq_of_beq hkk).symm
          simp [this]
        | false =>
          have : ¬ k = kv.1 := by
            intro hh
            rw [hh] at hkk
            simp at hkk
          simp [this]

/-- The prompt the duplicate-name example actually stores under `"x"`:
the one with model `"b"` (the parsed `max-tokens` attribute, absent here,
overwrites the default). -/
def c2promptB : Prompt where
  name := "x"
  request := { chatRequestDefault with model := "b", max_tokens := none }

/-- The map compiled from the two `"x"`-named prompts. -/
def c2map : List (String × Prompt) := [("x", c2promptB)]

/-- Claim C2, counterexample: with two prompts both named `"x"` carrying
models `"a"` then `"b"`, lookup of `"x"` returns the prompt with model
`"b"` — the later entry overwrites the earlier one in the `HashMap`, so
the claimed first-match rule fails. -/
theorem c2_counterexample :
    (internal_parse_html_dsl [c2elemA, c2elemB]).bind
      (fun m => (hmGet m "x").map (fun p => p.request.model)) = some "b" ∧
    ("b" : String) ≠ "a" := by
  constructor
  · decide
  · decide

/-- Claim C2, amended: for every compiled document and every name, lookup
returns the prompt of the **last** element in document order that compiled
to that name (earlier same-named entries are overwritten and unreachable),
and returns none when no element compiled to that name. -/
theorem c2_get_returns_last_match (es : List PromptElement)
    (m : List (String × Prompt)) (k : String)
    (h : internal_parse_html_dsl es = some m) :
    hmGet m k =
      ((es.filterMap compiledPair).reverse.find? (fun kv => kv.1 == k)).map
        (fun kv => kv.2) := by
  have hfold := hmGet_foldl es [] m k h
  simpa [hmGet] using hfold

/-- Claim C2, witness: the amended lookup rule evaluated on the concrete
duplicate-name document. -/
theorem c2_get_returns_last_match_witness :
    hmGet c2map "x" =
      (([c2elemA, c2elemB].filterMap compiledPair).reverse.find?
        (fun kv => kv.1 == "x")).map (fun kv => kv.2) :=
  c2_get_returns_last_match [c2elemA, c2elemB] c2map "x" (by decide)

/-- A message compiles to `none` (the `unwrap` panic) exactly when its
effective role string is unrecognized. -/
theorem compileMessage_eq_none_iff (me : MessageElement) :
    compileMessage me = none ↔ Role.ofString ((me.role_attr).getD "user") = none := by
  unfold compileMessage
  cases h : Role.ofString ((me.role_attr).getD "user") <;> simp [h]

/-- The message map aborts exactly when some message fails to compile. -/
theorem mapMessages_eq_none_iff (ms : List MessageElement) :
    mapMessages ms = none ↔ ∃ me ∈ ms, compileMessage me = none := by
  induction ms with
  | nil => simp [mapMessages]
  | cons me rest ih =>
    constructor
    · intro hnone
      cases h : compileMessage me with
      | none => exact ⟨me, List.mem_cons_self me rest, h⟩
      | some m =>
        cases hr : mapMessages rest with
        | none =>
          obtain ⟨me', hmem, h'⟩ := ih.mp hr
          exact ⟨me', List.mem_cons_of_mem _ hmem, h'⟩
        | some ms' =>
          rw [show mapMessages (me :: rest) = some (m :: ms') by
            unfold mapMessages; rw [h, hr]] at hnone
          simp at hnone
    · rintro ⟨me', hmem, h'⟩
      rcases List.mem_cons.mp hmem with rfl | hmem'
      · unfold mapMessages; rw [h']
      · have hr : mapMessages rest = none := ih.mpr ⟨me', hmem', h'⟩
        unfold mapMessages
        cases h : compileMessage me with
        | none => rfl
        | some m => rw [hr]

/-- An element aborts the compilation exactly when it has a `name`
attribute (so the `?` of the name read did not skip it first) and its
message map fails. -/
theorem compileElement_aborted_iff (e : PromptElement) :
    compileElement e = ElemResult.aborted ↔
      (e.attr "name").isSome ∧ mapMessages e.messages = none := by
  unfold compileElement
  cases hn : e.attr "name" with
  | none => simp
  | some name =>
    cases hm : mapMessages e.messages with
    | none => simp [hm]
    | some msgs => simp [hm]

/-- The whole run is poisoned exactly when some element aborts. -/
theorem foldl_parseStep_eq_none_iff (es : List PromptElement)
    (m0 : List (String × Prompt)) :
    es.foldl parseStep (some m0) = none ↔
      ∃ e ∈ es, compileElement e = ElemResult.aborted := by
  induction es generalizing m0 with
  | nil => simp
  | cons e rest ih =>
    rw [List.foldl_cons]
    cases hce : compileElement e with
    | aborted =>
      rw [show parseStep (some m0) e = none by simp [parseStep, hce]]
      rw [foldl_parseStep_none]
      simp only [true_iff]
      exact ⟨e, List.mem_cons_self e rest, hce⟩
    | skipped =>
      rw [show parseStep (some m0) e = some m0 by simp [parseStep, hce]]
      rw [ih m0]
      constructor
      · rintro ⟨e', hmem, hab⟩
        exact ⟨e', List.mem_cons_of_mem _ hmem, hab⟩
      · rintro ⟨e', hmem, hab⟩
        rcases List.mem_cons.mp hmem with rfl | hmem'
        · rw [hce] at hab; simp at hab
        · exact ⟨e', hmem', hab⟩
    | ok kv =>
      rw [show parseStep (some m0) e = some (hmInsert m0 kv.1 kv.2) by
        simp [parseStep, hce]]
      rw [ih (hmInsert m0 kv.1 kv.2)]
      constructor
      · rintro ⟨e', hmem, hab⟩
        exact ⟨e', List.mem_cons_of_mem _ hmem, hab⟩
      · rintro ⟨e', hmem, hab⟩
        rcases List.mem_cons.mp hmem with rfl | hmem'
        · rw [hce] at hab; simp at hab
        · exact ⟨e', hmem', hab⟩

/-- Claim C3, counterexample: a document holding a well-formed prompt and a
prompt whose message role is the unrecognized `"robot"` compiles to nothing
at all (the role `unwrap` panics and aborts the whole run), although the
well-formed prompt alone compiles fine — the failure is not scoped to the
offending prompt as claimed. -/
theorem c3_counterexample :
    internal_parse_html_dsl [elemGood, elemBadRole] = none ∧
    internal_parse_html_dsl [elemGood] ≠ none ∧
    Role.ofString "robot" = none := by
  refine ⟨?_, ?_, ?_⟩ <;> decide

/-- Claim C3, amended: an unrecognized message role (one matching none of
system/user/assistant case-insensitively) inside any named prompt element
aborts compilation of the **entire document** (the `unwrap` panic), rather
than merely dropping that prompt; the document compiles to a collection
exactly when no such element exists. -/
theorem c3_unrecognized_role_aborts_document (es : List PromptElement) :
    internal_parse_html_dsl es = none ↔
      ∃ e ∈ es, (e.attr "name").isSome ∧
        ∃ me ∈ e.messages, Role.ofString ((me.role_attr).getD "user") = none := by
  unfold internal_parse_html_dsl
  rw [foldl_parseStep_eq_none_iff]
  constructor
  · rintro ⟨e, hmem, hab⟩
    obtain ⟨hname, hmsgs⟩ := (compileElement_aborted_iff e).mp hab
    obtain ⟨me, hmmem, hbad⟩ := (mapMessages_eq_none_iff e.messages).mp hmsgs
    exact ⟨e, hmem, hname, me, hmmem, (compileMessage_eq_none_iff me).mp hbad⟩
  · rintro ⟨e, hmem, hname, me, hmmem, hbad⟩
    refine ⟨e, hmem, (compileElement_aborted_iff e).mpr ⟨hname, ?_⟩⟩
    exact (mapMessages_eq_none_iff e.messages).mpr
      ⟨me, hmmem, (compileMessage_eq_none_iff me).mpr hbad⟩

/-- The seven HTTP statuses that `ApiError::from_code` classifies. -/
def listedCodes : List Nat := [400, 401, 403, 404, 409, 422, 429]

/-- Claim C4, counterexample: the unmapped non-success statuses 500 and 418
are not classified at all — `from_code` yields `None`, so `execute` does
not fail on them (it even decodes the body), and in particular they never
yield `InternalServerError`. -/
theorem c4_counterexample :
    ApiError.from_code 500 = none ∧
    ApiError.from_code 418 = none ∧
    isSuccessStatus 500 = false ∧
    execFailed (executeResponse sampleParse
      { status := 500, headers := [], body_segments := [] }) = false := by
  refine ⟨?_, ?_, ?_, ?_⟩ <;> decide

/-- Claim C4, amended: classification is total and exhaustive over the
seven listed codes only — each maps to its specific kind — while **every**
other status, non-success ones such as 418 or 500 included, is left
unclassified (`None`) and thus causes no status-based failure;
`InternalServerError` is never produced by status classification. -/
theorem c4_status_classification :
    ApiError.from_code 400 = some ApiError.BadRequestError ∧
    ApiError.from_code 401 = some ApiError.AuthenticationError ∧
    ApiError.from_code 403 = some ApiError.PermissionDeniedError ∧
    ApiError.from_code 404 = some ApiError.NotFoundError ∧
    ApiError.from_code 409 = some ApiError.ConflictError ∧
    ApiError.from_code 422 = some ApiError.UnprocessableEntityError ∧
    ApiError.from_code 429 = some ApiError.RateLimitError ∧
    (∀ s : Nat, s ∉ listedCodes → ApiError.from_code s = none) ∧
    (∀ s : Nat, ApiError.from_code s ≠ some ApiError.InternalServerError) := by
  refine ⟨rfl, rfl, rfl, rfl, rfl, rfl, rfl, ?_, ?_⟩
  · intro s hs
    simp only [listedCodes, List.mem_cons, List.mem_singleton, not_or] at hs
    obtain ⟨h1, h2, h3, h4, h5, h6, h7⟩ := hs
    simp [ApiError.from_code, h1, h2, h3, h4, h5, h6, h7]
  · intro s
    unfold ApiError.from_code
    split_ifs <;> simp

/-- Claim C4, witness: the amended statement evaluated at the unmapped
statuses 500 and 418. -/
theorem c4_status_classification_witness :
    ApiError.from_code 500 = none ∧ ApiError.from_code 418 = none :=
  ⟨(c4_status_classification.2.2.2.2.2.2.2.1) 500 (by decide),
   (c4_status_classification.2.2.2.2.2.2.2.1) 418 (by decide)⟩

/-- A prompt element whose single message body carries the indented lines
of the spec's de-indent example. -/
def c5elem : PromptElement where
  attrs := [("name", "p")]
  messages := [{ role_attr := none, inner_html := "  line1\n    line2\n  line3" }]

/-- A successfully compiled message's content is the trimmed inner markup. -/
theorem compileMessage_some_content (me : MessageElement) (m : Message)
    (h : compileMessage me = some m) : m.content = rustTrim me.inner_html := by
  unfold compileMessage at h
  cases hro : Role.ofString ((me.role_attr).getD "user") with
  | none => rw [hro] at h; simp at h
  | some role =>
    rw [hro] at h
    injection h with h'
    rw [← h']

/-- Claim C5, counterexample: the example input lines
`["  line1", "    line2", "  line3"]` compile to content
`"line1\n    line2\n  line3"` — only the outer trim is applied — and not
to the claimed de-indented `"line1\n  line2\nline3"` (the `unindent` call
in the source is commented out). -/
theorem c5_counterexample :
    (internal_parse_html_dsl [c5elem]).bind
      (fun m => (hmGet m "p").map (fun p => p.request.messages.map
        (fun msg => msg.content))) = some ["line1\n    line2\n  line3"] ∧
    ("line1\n    line2\n  line3" : String) ≠ "line1\n  line2\nline3" := by
  constructor
  · decide
  · decide

/-- Claim C5, amended: for every message element, the compiled message
content equals the inner markup content trimmed of leading and trailing
whitespace, with **no** de-indentation — interior lines keep their full
original indentation. -/
theorem c5_content_is_trim_only (mes : List MessageElement) (msgs : List Message)
    (h : mapMessages mes = some msgs) :
    msgs.map (fun m => m.content) = mes.map (fun me => rustTrim me.inner_html) := by
  induction mes generalizing msgs with
  | nil =>
    simp [mapMessages] at h
    subst h
    simp
  | cons me rest ih =>
    unfold mapMessages at h
    cases hc : compileMessage me with
    | none => rw [hc] at h; simp at h
    | some m =>
      rw [hc] at h
      cases hr : mapMessages rest with
      | none => rw [hr] at h; simp at h
      | some ms' =>
        rw [hr] at h
        injection h with h'
        subst h'
        simp only [List.map_cons]
        rw [ih ms' hr, compileMessage_some_content me m hc]

/-- Claim C5, witness: the trim-only rule evaluated on the concrete
example element. -/
theorem c5_content_is_trim_only_witness :
    ([{ role := Role.user, content := "line1\n    line2\n  line3" }] : List Message).map
        (fun m => m.content) =
      c5elem.messages.map (fun me => rustTrim me.inner_html) :=
  c5_content_is_trim_only c5elem.messages
    [{ role := Role.user, content := "line1\n    line2\n  line3" }] (by decide)

/-- Classification succeeds exactly on the seven listed statuses. -/
theorem from_code_isSome_iff (s : Nat) :
    (ApiError.from_code s).isSome = true ↔ s ∈ listedCodes := by
  constructor
  · intro h
    by_contra hmem
    simp only [listedCodes, List.mem_cons, not_or] at hmem
    obtain ⟨h1, h2, h3, h4, h5, h6, h7, _⟩ := hmem
    simp [ApiError.from_code, h1, h2, h3, h4, h5, h6, h7] at h
  · intro h
    simp only [listedCodes, List.mem_cons] at h
    rcases h with rfl | rfl | rfl | rfl | rfl | rfl | rfl | h
    · decide
    · decide
    · decide
    · decide
    · decide
    · decide
    · decide
    · exact absurd h (List.not_mem_nil s)

/-- Claim C6, counterexample: for the non-success status 500 the call does
not fail at all — the status is unclassified, and the body **is** decoded
as a stream (here it yields a chunk), contrary to the claimed immediate
error return for every non-success status. -/
theorem c6_counterexample :
    isSuccessStatus 500 = false ∧
    executeResponse sampleParse
        { status := 500, headers := [], body_segments := [c1seg1 ++ c1seg2] } =
      Except.ok { rate_limit_metadata := none, output := [sampleChunk] } := by
  constructor
  · decide
  · rfl

/-- Claim C6, amended: `execute` fails on the status exactly when it is one
of the seven listed codes; in that case the returned error is the
classified kind and the return happens before header or body handling (the
error carries no rate-limit metadata and no chunks); for every other
status — success or not — the call proceeds to best-effort metadata
extraction and decodes the body as a stream. -/
theorem c6_error_return_scope (parse : String → Option CompletionChunk)
    (resp : HttpResponse) :
    (execFailed (executeResponse parse resp) = true ↔ resp.status ∈ listedCodes) ∧
    (∀ e, executeResponse parse resp = Except.error e →
      ApiError.from_code resp.status = some e) ∧
    (resp.status ∉ listedCodes →
      executeResponse parse resp =
        Except.ok { rate_limit_metadata := RateLimitMetadata.from_response resp.headers,
                    output := streamDecode parse resp.body_segments }) := by
  have hkey : execFailed (executeResponse parse resp) =
      (ApiError.from_code resp.status).isSome := by
    cases h : ApiError.from_code resp.status with
    | some e => simp [executeResponse, execFailed, h]
    | none => simp [executeResponse, execFailed, h]
  refine ⟨?_, ?_, ?_⟩
  · rw [hkey]
    exact from_code_isSome_iff resp.status
  · intro e he
    cases h : ApiError.from_code resp.status with
    | none => simp [executeResponse, h] at he
    | some e' =>
      simp [executeResponse, h] at he
      rw [he]

  · intro hmem
    have hnone : ApiError.from_code resp.status = none := by
      cases h : ApiError.from_code resp.status with
      | none => rfl
      | some e =>
        exact absurd ((from_code_isSome_iff resp.status).mp (by simp [h])) hmem
    simp [executeResponse, hnone]

/-- Claim C6, witness: the amended statement evaluated at a classified
status (429) and an unclassified one (200). -/
theorem c6_error_return_scope_witness :
    ApiError.from_code 429 = some ApiError.RateLimitError ∧
    executeResponse sampleParse { status := 200, headers := [], body_segments := [] } =
      Except.ok { rate_limit_metadata := RateLimitMetadata.from_response [],
                  output := streamDecode sampleParse [] } :=
  ⟨(c6_error_return_scope sampleParse
      { status := 429, headers := [], body_segments := [] }).2.1
      ApiError.RateLimitError (by rfl),
   (c6_error_return_scope sampleParse
      { status := 200, headers := [], body_segments := [] }).2.2 (by decide)⟩

/-- A configuration with `model`, `top_logprobs` and `seed` all set. -/
def c7cfg : ConfigurationBuilder :=
  { configurationBuilderDefault with
    model := some "m", top_logprobs := some 3, seed := some 7 }

/-- Claim C7, counterexample: with `model` set, `build` succeeds but the
configuration's `top_logprobs` and `seed` are **not** passed through — the
returned body carries `none` for both although the configuration holds
`some 3` and `some 7`. -/
theorem c7_counterexample :
    (ConfigurationBuilder.build c7cfg []).map (fun b => b.top_logprobs) = some none ∧
    (ConfigurationBuilder.build c7cfg []).map (fun b => b.seed) = some none ∧
    c7cfg.top_logprobs = some 3 ∧
    c7cfg.seed = some 7 := by
  refine ⟨?_, ?_, ?_, ?_⟩ <;> rfl

/-- Claim C7, amended: `build(messages)` returns none exactly when `model`
is unset; when `model` is set the result carries that model, the given
messages in order, and the ten copied configuration fields unchanged,
while `top_logprobs` and `seed` are always left unset in the result (the
source never copies them), with no cross-field validation. -/
theorem c7_build_passthrough (cfg : ConfigurationBuilder) (msgs : List Message) :
    ((cfg.build msgs).isNone ↔ cfg.model = none) ∧
    cfg.build msgs = cfg.model.map (fun model =>
      { messages := msgs
        model := model
        stream := cfg.stream
        temperature := cfg.temperature
        n := cfg.n
        max_tokens := cfg.max_tokens
        top_p := cfg.top_p
        frequency_penalty := cfg.frequency_penalty
        presence_penalty := cfg.presence_penalty
        logprobs := cfg.logprobs
        top_logprobs := none
        response_format := cfg.response_format
        stop := cfg.stop
        seed := none }) := by
  cases h : cfg.model with
  | none =>
    refine ⟨?_, ?_⟩ <;> simp [ConfigurationBuilder.build, h]
  | some m =>
    refine ⟨?_, ?_⟩ <;> simp [ConfigurationBuilder.build, ChatCompletionsBody.new, h]

/-- The three-chunk aggregation example of the claim: choice indices 0, 1
and 0 again, with contents `"Hel"`, `"Yo"`, `"lo"`. -/
def c8response : ChatCompletionsResponse where
  rate_limit_metadata := none
  output :=
    [{ id := "a",
       choices := [{ index := 0, delta := { content := some "Hel" }, finish_reason := none }],
       created := 0, model := "m", system_fingerprint := none, object := "o" },
     { id := "b",
       choices := [{ index := 1, delta := { content := some "Yo" }, finish_reason := none }],
       created := 0, model := "m", system_fingerprint := none, object := "o" },
     { id := "c",
       choices := [{ index := 0, delta := { content := some "lo" }, finish_reason := none }],
       created := 0, model := "m", system_fingerprint := none, object := "o" }]

/-- Claim C8: `content(index)` is the arrival-order concatenation of every
choice's `delta.content` over every chunk where the choice index matches,
it is empty when no chunk ever produced the index, and the example
`[{idx0,"Hel"},{idx1,"Yo"},{idx0,"lo"}]` gives `"Hello"`, `"Yo"`, `""`. -/
theorem c8_content_aggregation (r : ChatCompletionsResponse) (index : Nat) :
    r.content index =
      String.join ((r.output.flatMap (fun chunk => chunk.choices)).filterMap
        (fun choice => if choice.index = index then choice.delta.content else none)) ∧
    ((∀ chunk ∈ r.output, ∀ choice ∈ chunk.choices, choice.index ≠ index) →
      r.content index = "") ∧
    (c8response.content 0 = "Hello" ∧
     c8response.content 1 = "Yo" ∧
     c8response.content 2 = "") := by
  refine ⟨?_, ?_, by decide, by decide, by decide⟩
  · simp [ChatCompletionsResponse.content, List.filterMap_flatMap]
  · intro h
    have hnil : r.output.flatMap (fun chunk =>
        chunk.choices.filterMap (fun choice =>
          if choice.index = index then choice.delta.content else none)) = [] := by
      rw [List.flatMap_eq_nil_iff]
      intro chunk hchunk
      rw [List.filterMap_eq_nil_iff]
      intro choice hchoice
      simp [h chunk hchunk choice hchoice]
    rw [ChatCompletionsResponse.content, hnil]
    rfl

/-- Claim C8, witness: the empty-aggregation case evaluated on the concrete
example at the never-produced index 2. -/
theorem c8_content_aggregation_witness : c8response.content 2 = "" :=
  (c8_content_aggregation c8response 2).2.1 (by decide)

/-- Claim C9: rate-limit extraction is all-or-nothing — it yields none
exactly when one of the eight consumed header sources is absent or (for
the six numeric ones) unparsable, and when it yields a record, every one
of the eight fields is populated from its header. -/
theorem c9_all_or_nothing (hs : List (String × String)) :
    (RateLimitMetadata.from_response hs = none ↔
      ((hdrGet hs "retry-after").bind parseUsize = none ∨
       (hdrGet hs "retry-after-ms").bind parseUsize = none ∨
       (hdrGet hs "x-ratelimit-limit-requests").bind parseUsize = none ∨
       (hdrGet hs "x-ratelimit-limit-tokens").bind parseUsize = none ∨
       (hdrGet hs "x-ratelimit-remaining-requests").bind parseUsize = none ∨
       (hdrGet hs "x-ratelimit-remaining-tokens").bind parseUsize = none ∨
       hdrGet hs "x-ratelimit-reset-requests" = none ∨
       hdrGet hs "x-ratelimit-reset-tokens" = none)) ∧
    (∀ md, RateLimitMetadata.from_response hs = some md →
      (hdrGet hs "retry-after").bind parseUsize = some md.retry_after ∧
      (hdrGet hs "retry-after-ms").bind parseUsize = some md.retry_after_ms ∧
      (hdrGet hs "x-ratelimit-limit-requests").bind parseUsize = some md.ratelimit_limit_requests ∧
      (hdrGet hs "x-ratelimit-limit-tokens").bind parseUsize = some md.ratelimit_limit_tokens ∧
      (hdrGet hs "x-ratelimit-remaining-requests").bind parseUsize = some md.ratelimit_remaining_requests ∧
      (hdrGet hs "x-ratelimit-remaining-tokens").bind parseUsize = some md.ratelimit_remaining_tokens ∧
      hdrGet hs "x-ratelimit-reset-requests" = some md.ratelimit_reset_requests ∧
      hdrGet hs "x-ratelimit-reset-tokens" = some md.ratelimit_reset_tokens) := by
  cases h1 : hdrGet hs "retry-after" with
  | none =>
    refine ⟨by simp [RateLimitMetadata.from_response, h1], ?_⟩
    intro md hmd
    simp [RateLimitMetadata.from_response, h1] at hmd
  | some v1 =>
    cases h2 : hdrGet hs "retry-after-ms" with
    | none =>
      refine ⟨by simp [RateLimitMetadata.from_response, h1, h2], ?_⟩
      intro md hmd
      simp [RateLimitMetadata.from_response, h1, h2] at hmd
    | some v2 =>
      cases h3 : hdrGet hs "x-ratelimit-limit-requests" with
      | none =>
        refine ⟨by simp [RateLimitMetadata.from_response, h1, h2, h3], ?_⟩
        intro md hmd
        simp [RateLimitMetadata.from_response, h1, h2, h3] at hmd
      | some v3 =>
        cases h4 : hdrGet hs "x-ratelimit-limit-tokens" with
        | none =>
          refine ⟨by simp [RateLimitMetadata.from_response, h1, h2, h3, h4], ?_⟩
          intro md hmd
          simp [RateLimitMetadata.from_response, h1, h2, h3, h4] at hmd
        | some v4 =>
          cases h5 : hdrGet hs "x-ratelimit-remaining-requests" with
          | none =>
            refine ⟨by simp [RateLimitMetadata.from_response, h1, h2, h3, h4, h5], ?_⟩
            intro md hmd
            simp [RateLimitMetadata.from_response, h1, h2, h3, h4, h5] at hmd
          | some v5 =>
            cases h6 : hdrGet hs "x-ratelimit-remaining-tokens" with
            | none =>
              refine ⟨by simp [RateLimitMetadata.from_response, h1, h2, h3, h4, h5, h6], ?_⟩
              intro md hmd
              simp [RateLimitMetadata.from_response, h1, h2, h3, h4, h5, h6] at hmd
            | some v6 =>
              cases h7 : hdrGet hs "x-ratelimit-reset-requests" with
              | none =>
                refine ⟨by simp [RateLimitMetadata.from_response, h1, h2, h3, h4, h5, h6, h7], ?_⟩
                intro md hmd
                simp [RateLimitMetadata.from_response, h1, h2, h3, h4, h5, h6, h7] at hmd
              | some v7 =>
                cases h8 : hdrGet hs "x-ratelimit-reset-tokens" with
                | none =>
                  refine ⟨by simp [RateLimitMetadata.from_response, h1, h2, h3, h4, h5, h6, h7, h8], ?_⟩
                  intro md hmd
                  simp [RateLimitMetadata.from_response, h1, h2, h3, h4, h5, h6, h7, h8] at hmd
                | some v8 =>
                  cases p1 : parseUsize v1 with
                  | none =>
                    refine ⟨by simp [RateLimitMetadata.from_response, h1, h2, h3, h4, h5, h6, h7, h8, p1], ?_⟩
                    intro md hmd
                    simp [RateLimitMetadata.from_response, h1, h2, h3, h4, h5, h6, h7, h8, p1] at hmd
                  | some w1 =>
                    cases p2 : parseUsize v2 with
                    | none =>
                      refine ⟨by simp [RateLimitMetadata.from_response, h1, h2, h3, h4, h5, h6, h7, h8, p1, p2], ?_⟩
                      intro md hmd
                      simp [RateLimitMetadata.from_response, h1, h2, h3, h4, h5, h6, h7, h8, p1, p2] at hmd
                    | some w2 =>
                      cases p3 : parseUsize v3 with
                      | none =>
                        refine ⟨by simp [RateLimitMetadata.from_response, h1, h2, h3, h4, h5, h6, h7, h8, p1, p2, p3], ?_⟩
                        intro md hmd
                        simp [RateLimitMetadata.from_response, h1, h2, h3, h4, h5, h6, h7, h8, p1, p2, p3] at hmd
                      | some w3 =>
                        cases p4 : parseUsize v4 with
                        | none =>
                          refine ⟨by simp [RateLimitMetadata.from_response, h1, h2, h3, h4, h5, h6, h7, h8, p1, p2, p3, p4], ?_⟩
                          intro md hmd
                          simp [RateLimitMetadata.from_response, h1, h2, h3, h4, h5, h6, h7, h8, p1, p2, p3, p4] at hmd
                        | some w4 =>
                          cases p5 : parseUsize v5 with
                          | none =>
                            refine ⟨by simp [RateLimitMetadata.from_response, h1, h2, h3, h4, h5, h6, h7, h8, p1, p2, p3, p4, p5], ?_⟩
                            intro md hmd
                            simp [RateLimitMetadata.from_response, h1, h2, h3, h4, h5, h6, h7, h8, p1, p2, p3, p4, p5] at hmd
                          | some w5 =>
                            cases p6 : parseUsize v6 with
                            | none =>
                              refine ⟨by simp [RateLimitMetadata.from_response, h1, h2, h3, h4, h5, h6, h7, h8, p1, p2, p3, p4, p5, p6], ?_⟩
                              intro md hmd
                              simp [RateLimitMetadata.from_response, h1, h2, h3, h4, h5, h6, h7, h8, p1, p2, p3, p4, p5, p6] at hmd
                            | some w6 =>
                              have hval : RateLimitMetadata.from_response hs =
                                  some ⟨w1, w2, w3, w4, w5, w6, v7, v8⟩ := by
                                simp [RateLimitMetadata.from_response, h1, h2, h3, h4, h5, h6, h7, h8, p1, p2, p3, p4, p5, p6]
                              refine ⟨?_, ?_⟩
                              · rw [hval]
                                simp [h1, h2, h3, h4, h5, h6, h7, h8, p1, p2, p3, p4, p5, p6]
                              · intro md hmd
                                rw [hval] at hmd
                                injection hmd with hmd
                                subst hmd
                                refine ⟨?_, ?_, ?_, ?_, ?_, ?_, ?_, ?_⟩ <;> simp [h1, h2, h3, h4, h5, h6, h7, h8, p1, p2, p3, p4, p5, p6]

/-- A header list carrying all eight rate-limit sources with parsable
numeric values. -/
def c9headers : List (String × String) :=
  [("retry-after", "1"), ("retry-after-ms", "1000"),
   ("x-ratelimit-limit-requests", "60"), ("x-ratelimit-limit-tokens", "150000"),
   ("x-ratelimit-remaining-requests", "59"), ("x-ratelimit-remaining-tokens", "149000"),
   ("x-ratelimit-reset-requests", "1s"), ("x-ratelimit-reset-tokens", "6m0s")]

/-- The metadata record extracted from `c9headers`. -/
def c9md : RateLimitMetadata where
  retry_after := 1
  retry_after_ms := 1000
  ratelimit_limit_requests := 60
  ratelimit_limit_tokens := 150000
  ratelimit_remaining_requests := 59
  ratelimit_remaining_tokens := 149000
  ratelimit_reset_requests := "1s"
  ratelimit_reset_tokens := "6m0s"

/-- Claim C9, witness: the populated-record half of the all-or-nothing rule
evaluated on the fully-populated concrete header list. -/
theorem c9_all_or_nothing_witness :
    (hdrGet c9headers "retry-after").bind parseUsize = some c9md.retry_after ∧
    (hdrGet c9headers "retry-after-ms").bind parseUsize = some c9md.retry_after_ms ∧
    (hdrGet c9headers "x-ratelimit-limit-requests").bind parseUsize =
      some c9md.ratelimit_limit_requests ∧
    (hdrGet c9headers "x-ratelimit-limit-tokens").bind parseUsize =
      some c9md.ratelimit_limit_tokens ∧
    (hdrGet c9headers "x-ratelimit-remaining-requests").bind parseUsize =
      some c9md.ratelimit_remaining_requests ∧
    (hdrGet c9headers "x-ratelimit-remaining-tokens").bind parseUsize =
      some c9md.ratelimit_remaining_tokens ∧
    hdrGet c9headers "x-ratelimit-reset-requests" = some c9md.ratelimit_reset_requests ∧
    hdrGet c9headers "x-ratelimit-reset-tokens" = some c9md.ratelimit_reset_tokens :=
  (c9_all_or_nothing c9headers).2 c9md (by decide)

/-- Claim C10: a prompt element without a `name` attribute is silently
omitted — removing it from any document position leaves the compiled
result unchanged, so its absence of a name never fails the others — and a
named prompt element without a `model` attribute compiles with the default
model `"gpt-3.5-turbo"`. -/
theorem c10_nameless_skipped_default_model :
    (∀ (xs ys : List PromptElement) (e : PromptElement), e.attr "name" = none →
      internal_parse_html_dsl (xs ++ e :: ys) = internal_parse_html_dsl (xs ++ ys)) ∧
    (∀ (e : PromptElement) (name : String) (msgs : List Message),
      e.attr "name" = some name → e.attr "model" = none →
      mapMessages e.messages = some msgs →
      (compiledPair e).map (fun kv => kv.2.request.model) = some "gpt-3.5-turbo") := by
  constructor
  · intro xs ys e he
    unfold internal_parse_html_dsl
    rw [List.foldl_append, List.foldl_cons, List.foldl_append]
    have hskip : compileElement e = ElemResult.skipped := by
      unfold compileElement
      rw [he]
    cases hacc : xs.foldl parseStep (some []) with
    | none => simp [parseStep]
    | some m => simp [parseStep, hskip]
  · intro e name msgs hname hmodel hmsgs
    simp [compiledPair, compileElement, hname, hmodel, hmsgs]

/-- Claim C10, witness: both halves evaluated on the concrete nameless and
model-less elements. -/
theorem c10_nameless_skipped_default_model_witness :
    internal_parse_html_dsl ([] ++ elemNoName :: [elemGood]) =
      internal_parse_html_dsl ([] ++ [elemGood]) ∧
    (compiledPair elemGood).map (fun kv => kv.2.request.model) =
      some "gpt-3.5-turbo" :=
  ⟨c10_nameless_skipped_default_model.1 [] [elemGood] elemNoName (by decide),
   c10_nameless_skipped_default_model.2 elemGood "good"
     [{ role := Role.user, content := "hi" }] (by decide) (by decide) (by decide)⟩
